import Mathlib

/-!
Shallow embedding of the signal-scoring engine of the
Sentiment-Aware-Trading-Bot repository.

Embedded sources:
- backend/app/services/trading_service.py (scoring, risk, position sizing)
- backend/app/schemas/trading.py (TradingConfig construction/validation)
- backend/app/api/v1/endpoints/trading.py (the execute-trade endpoint)

Modelling conventions:
- Python floats are modelled as exact rationals; all formulas in scope are
  field arithmetic and comparisons, so exact rationals give the intended
  real-number semantics of the source formulas.
- Python None / present values are modelled with Option.
- Python truthiness of an optional float (used by the source in
  conditions such as `if indicators.rsi:`) is "is not None and is not 0.0",
  which is modelled explicitly.
- numpy std-based comparisons sqrt(var)/m > c are translated to the
  equivalent comparisons on the variance (squaring both sides), since
  square roots leave the rationals; the translation is noted at each spot.
- a source division that can raise ZeroDivisionError on a reachable
  input is modelled as an Option-valued computation that is none exactly
  on those inputs (the technical scorer's price-vs-SMA and Bollinger
  blocks).
-/

set_option linter.unusedVariables false

namespace SentimentBot

/-- One OHLCV bar (schema class MarketData, backend/app/schemas/trading.py).
Only the two fields that the scoring functions read (close_price, volume)
are carried; the schema's remaining fields (symbol, timestamp,
open/high/low price, timeframe, ...) are never read by the embedded
functions. -/
structure MarketData where
  close_price : ℚ
  volume : ℤ
deriving Repr, DecidableEq, Inhabited

/-- One scored news item (schema class NewsItem); only the fields read by
the scoring functions are carried. -/
structure NewsItem where
  sentiment : ℚ
  sentiment_confidence : ℚ
deriving Repr, DecidableEq, Inhabited

/-- Schema class TechnicalIndicators: one optional value per indicator.
The symbol/timestamp fields are omitted (never read by the scorers). -/
structure TechnicalIndicators where
  sma_20 : Option ℚ := none
  sma_50 : Option ℚ := none
  ema_12 : Option ℚ := none
  ema_26 : Option ℚ := none
  rsi : Option ℚ := none
  macd : Option ℚ := none
  macd_signal : Option ℚ := none
  macd_histogram : Option ℚ := none
  bollinger_upper : Option ℚ := none
  bollinger_middle : Option ℚ := none
  bollinger_lower : Option ℚ := none
  stochastic_k : Option ℚ := none
  stochastic_d : Option ℚ := none
  williams_r : Option ℚ := none
  atr : Option ℚ := none
deriving Repr, DecidableEq, Inhabited

/-- Enum SignalType. -/
inductive SignalType where
  | BUY
  | SELL
  | HOLD
deriving Repr, DecidableEq, Inhabited

/-- Enum RiskLevel. -/
inductive RiskLevel where
  | low
  | medium
  | high
deriving Repr, DecidableEq, Inhabited

/-- Python truthiness of an optional float: None and 0.0 are falsy. -/
def pyTruthy (x : Option ℚ) : Bool :=
  match x with
  | none => false
  | some v => decide (v ≠ 0)

/-- Python negative indexing l[-k] on a list known to be long enough
(the embedded functions only use it behind length guards). -/
def pyNeg {α : Type} [Inhabited α] (l : List α) (k : ℕ) : α :=
  l.getD (l.length - k) default

/-- Arithmetic mean, numpy-style (sum divided by length). -/
def mean (xs : List ℚ) : ℚ :=
  xs.sum / (xs.length : ℚ)

/-- Population variance as computed by numpy std squared:
mean of squared deviations from the mean. -/
def popVar (xs : List ℚ) : ℚ :=
  (xs.map (fun x => (x - mean xs) ^ 2)).sum / (xs.length : ℚ)

/-- The recency weight of the sentiment loop: item at rank i gets weight
1/(i+1). -/
def recency_weight (p : ℕ × NewsItem) : ℚ :=
  (1 : ℚ) / ((p.1 : ℚ) + 1)

/-- The weighted summand of the sentiment loop:
sentiment * confidence * weight for the item at rank i. -/
def weighted_sentiment_term (p : ℕ × NewsItem) : ℚ :=
  p.2.sentiment * p.2.sentiment_confidence * recency_weight p

/-- TradingService._calculate_sentiment_score
(backend/app/services/trading_service.py, lines 262-279): recency-weighted
average of sentiment*confidence with weight 1/(rank+1), 0.0 on empty
input, translated as the source's running-sums loop over the enumerated
list. -/
def calculate_sentiment_score (news_data : List NewsItem) : ℚ :=
  match news_data with
  | [] => 0
  | _ =>
    let acc := news_data.enum.foldl
      (fun acc p => (acc.1 + weighted_sentiment_term p, acc.2 + recency_weight p))
      ((0 : ℚ), (0 : ℚ))
    if acc.2 > 0 then acc.1 / acc.2 else 0

/-- The aggregate the spec describes for the sentiment aggregator:
sum of score*confidence*weight over ranks divided by the sum of the
weights, weight = 1/(rank+1), 0.0 for the empty list. -/
def sentiment_aggregate_spec (news_data : List NewsItem) : ℚ :=
  match news_data with
  | [] => 0
  | _ =>
    ((news_data.enum.map weighted_sentiment_term).sum)
      / ((news_data.enum.map recency_weight).sum)

/-- The pre-clamp confidence value of TradingService._calculate_confidence
(trading_service.py, lines 413-425): the positive/negative/neutral counts
(neutral by complement, as in the source), the agreement ratio, the mean
absolute score, and confidence = agreement_ratio*0.6 + avg_magnitude*0.4. -/
def confidence_core (scores : List ℚ) : ℚ :=
  let n := scores.length
  let positive_scores := scores.countP (fun s => decide (s > (1 : ℚ) / 10))
  let negative_scores := scores.countP (fun s => decide (s < -((1 : ℚ) / 10)))
  let neutral_scores := n - positive_scores - negative_scores
  let max_agreement := max positive_scores (max negative_scores neutral_scores)
  let agreement_ratio : ℚ := (max_agreement : ℚ) / (n : ℚ)
  let avg_magnitude : ℚ := (scores.map (fun s => |s|)).sum / (n : ℚ)
  agreement_ratio * ((6 : ℚ) / 10) + avg_magnitude * ((4 : ℚ) / 10)

/-- TradingService._calculate_confidence (trading_service.py, lines
405-426): 0.0 on empty input, otherwise the core value with an upper
clamp at 1.0 only (the source returns min(confidence, 1.0)). -/
def calculate_confidence (scores : List ℚ) : ℚ :=
  match scores with
  | [] => 0
  | _ => min (confidence_core scores) 1

/-- The confidence formula as the spec words it: the same combination,
but clamped to [0, 1] on both sides, empty list giving 0. -/
def confidence_clamped_spec (scores : List ℚ) : ℚ :=
  match scores with
  | [] => 0
  | _ => max 0 (min (confidence_core scores) 1)

/-- RSI block of TradingService._calculate_technical_score
(trading_service.py, lines 291-299), threading the (score, signals_count)
pair of the source. -/
def rsi_block (acc : ℚ × ℕ) (rsi : Option ℚ) : ℚ × ℕ :=
  match rsi with
  | some r =>
    (if r < 30 then acc.1 + (7 : ℚ) / 10
     else if r > 70 then acc.1 - (7 : ℚ) / 10
     else if 40 ≤ r ∧ r ≤ 60 then acc.1 + (1 : ℚ) / 10
     else acc.1,
     acc.2 + 1)
  | none => acc

/-- MACD block (lines 301-307). -/
def macd_block (acc : ℚ × ℕ) (macd macd_signal : Option ℚ) : ℚ × ℕ :=
  match macd, macd_signal with
  | some m, some s =>
    (if m > s then acc.1 + (1 : ℚ) / 2 else acc.1 - (1 : ℚ) / 2, acc.2 + 1)
  | _, _ => acc

/-- Moving-average cross block (lines 309-315). -/
def sma_cross_block (acc : ℚ × ℕ) (sma_20 sma_50 : Option ℚ) : ℚ × ℕ :=
  match sma_20, sma_50 with
  | some s20, some s50 =>
    (if s20 > s50 then acc.1 + (3 : ℚ) / 5 else acc.1 - (3 : ℚ) / 5, acc.2 + 1)
  | _, _ => acc

/-- Price-vs-SMA20 block (lines 317-321).  The source guards only on
sma_20 being not None and then divides by it, so a present SMA20 of
exactly 0.0 raises ZeroDivisionError — modelled as none. -/
def price_vs_sma_block (acc : ℚ × ℕ) (current_price : ℚ) (sma_20 : Option ℚ) : Option (ℚ × ℕ) :=
  match sma_20 with
  | some s20 =>
    if s20 = 0 then none
    else
      some (acc.1 + min (max ((current_price - s20) / s20 * 2) (-((1 : ℚ) / 2))) ((1 : ℚ) / 2),
            acc.2 + 1)
  | none => some acc

/-- Bollinger block (lines 323-330).  The source guards with Python
truthiness all([upper, lower, middle]), so a band that is exactly 0.0 is
skipped like a missing one; when the guard passes it divides by
upper - lower, so equal (nonzero) bands raise ZeroDivisionError —
modelled as none. -/
def bollinger_block (acc : ℚ × ℕ) (current_price : ℚ) (upper lower middle : Option ℚ) :
    Option (ℚ × ℕ) :=
  if pyTruthy upper && pyTruthy lower && pyTruthy middle then
    if upper.getD 0 - lower.getD 0 = 0 then none
    else
      let bb_position := (current_price - lower.getD 0) / (upper.getD 0 - lower.getD 0)
      some (if bb_position < (1 : ℚ) / 5 then acc.1 + (2 : ℚ) / 5
            else if bb_position > (4 : ℚ) / 5 then acc.1 - (2 : ℚ) / 5
            else acc.1,
            acc.2 + 1)
  else some acc

/-- Stochastic block (lines 332-338). -/
def stochastic_block (acc : ℚ × ℕ) (stochastic_k : Option ℚ) : ℚ × ℕ :=
  match stochastic_k with
  | some k =>
    (if k < 20 then acc.1 + (3 : ℚ) / 10
     else if k > 80 then acc.1 - (3 : ℚ) / 10
     else acc.1,
     acc.2 + 1)
  | none => acc

/-- TradingService._calculate_technical_score (trading_service.py, lines
281-340), body on the current price (the source reads
current_price = market_data[-1].close_price and then only uses it in the
price-vs-SMA and Bollinger blocks).  The six source blocks run in order,
threading the running score and signals_count; the final score is
score / signals_count, or 0.0 when no group was counted.  A
ZeroDivisionError escaping from the price-vs-SMA or Bollinger block
(the only fallible ones) aborts the computation — modelled as none. -/
def technical_score_body (indicators : TechnicalIndicators) (current_price : ℚ) : Option ℚ :=
  let acc : ℚ × ℕ := (0, 0)
  let acc := rsi_block acc indicators.rsi
  let acc := macd_block acc indicators.macd indicators.macd_signal
  let acc := sma_cross_block acc indicators.sma_20 indicators.sma_50
  match price_vs_sma_block acc current_price indicators.sma_20 with
  | none => none
  | some acc =>
    match bollinger_block acc current_price indicators.bollinger_upper
        indicators.bollinger_lower indicators.bollinger_middle with
    | none => none
    | some acc =>
      let acc := stochastic_block acc indicators.stochastic_k
      some (if acc.2 > 0 then acc.1 / (acc.2 : ℚ) else 0)

/-- TradingService._calculate_technical_score as called: the current price
is the close of the last bar. -/
def calculate_technical_score (indicators : TechnicalIndicators) (market_data : List MarketData) :
    Option ℚ :=
  technical_score_body indicators (pyNeg market_data 1).close_price

/-- Contribution of the RSI block when the indicator is present: +0.7
oversold, -0.7 overbought, +0.1 in the 40..60 band, otherwise 0. -/
def rsi_contribution (rsi : Option ℚ) : Option ℚ :=
  match rsi with
  | some r =>
    some (if r < 30 then (7 : ℚ) / 10
          else if r > 70 then -((7 : ℚ) / 10)
          else if 40 ≤ r ∧ r ≤ 60 then (1 : ℚ) / 10
          else 0)
  | none => none

/-- Contribution of the MACD-vs-signal block when both values are present. -/
def macd_contribution (macd macd_signal : Option ℚ) : Option ℚ :=
  match macd, macd_signal with
  | some m, some s => some (if m > s then (1 : ℚ) / 2 else -((1 : ℚ) / 2))
  | _, _ => none

/-- Contribution of the SMA20-vs-SMA50 block when both values are present. -/
def sma_cross_contribution (sma_20 sma_50 : Option ℚ) : Option ℚ :=
  match sma_20, sma_50 with
  | some s20, some s50 => some (if s20 > s50 then (3 : ℚ) / 5 else -((3 : ℚ) / 5))
  | _, _ => none

/-- Outcome of the price-vs-SMA20 block as a contribution: the outer
Option is the exception path (none = ZeroDivisionError, raised exactly
when SMA20 is present and 0.0), the inner Option marks an absent group;
when present and nonzero, clamp((price-SMA20)/SMA20 * 2, -0.5, 0.5). -/
def price_vs_sma_contribution (current_price : ℚ) (sma_20 : Option ℚ) : Option (Option ℚ) :=
  match sma_20 with
  | some s20 =>
    if s20 = 0 then none
    else some (some (min (max ((current_price - s20) / s20 * 2) (-((1 : ℚ) / 2))) ((1 : ℚ) / 2)))
  | none => some none

/-- Outcome of the Bollinger block as a contribution: the group counts as
present exactly when all three band values are present and nonzero,
matching the source's truthiness test all([upper, lower, middle]); when
present with equal upper and lower bands, the source's division raises
ZeroDivisionError (outer none). -/
def bollinger_contribution (current_price : ℚ) (upper lower middle : Option ℚ) :
    Option (Option ℚ) :=
  if pyTruthy upper && pyTruthy lower && pyTruthy middle then
    if upper.getD 0 - lower.getD 0 = 0 then none
    else
      let bb_position := (current_price - lower.getD 0) / (upper.getD 0 - lower.getD 0)
      some (some (if bb_position < (1 : ℚ) / 5 then (2 : ℚ) / 5
                  else if bb_position > (4 : ℚ) / 5 then -((2 : ℚ) / 5)
                  else 0))
  else some none

/-- Contribution of the stochastic block when %K is present. -/
def stochastic_contribution (stochastic_k : Option ℚ) : Option ℚ :=
  match stochastic_k with
  | some k =>
    some (if k < 20 then (3 : ℚ) / 10
          else if k > 80 then -((3 : ℚ) / 10)
          else 0)
  | none => none

/-- The average the technical scorer takes over a list of optional
per-group contributions: sum of the present ones over their count, 0.0
when none is present. -/
def technical_average (contributions : List (Option ℚ)) : ℚ :=
  let cs := contributions.filterMap id
  if cs.length > 0 then cs.sum / (cs.length : ℚ) else 0

/-- The values of the present contributions, in order. -/
def present_scores (contributions : List (Option ℚ)) : List ℚ :=
  contributions.filterMap id

/-- One step of accumulating a list of optional contributions: a present
contribution is added to the score and counted, an absent one changes
nothing. -/
def contribution_step (acc : ℚ × ℕ) (c : Option ℚ) : ℚ × ℕ :=
  match c with
  | some d => (acc.1 + d, acc.2 + 1)
  | none => acc

/-- The price-vs-SMA20 contribution as the claim words it: a plain
clamped value whenever SMA20 is set (the claim's table has no error
case). -/
def price_vs_sma_contribution_claimed (current_price : ℚ) (sma_20 : Option ℚ) : Option ℚ :=
  match sma_20 with
  | some s20 =>
    some (min (max ((current_price - s20) / s20 * 2) (-((1 : ℚ) / 2))) ((1 : ℚ) / 2))
  | none => none

/-- The Bollinger contribution as the claim words it: the group is
present whenever the three band values are set, with no nonzero
requirement. -/
def bollinger_contribution_claimed (current_price : ℚ) (upper lower middle : Option ℚ) : Option ℚ :=
  match upper, lower, middle with
  | some u, some l, some _ =>
    let bb_position := (current_price - l) / (u - l)
    some (if bb_position < (1 : ℚ) / 5 then (2 : ℚ) / 5
          else if bb_position > (4 : ℚ) / 5 then -((2 : ℚ) / 5)
          else 0)
  | _, _, _ => none

/-- The contribution table as the claim words it (Bollinger presence by
being set, not by Python truthiness). -/
def technical_contributions_claimed (indicators : TechnicalIndicators) (current_price : ℚ) :
    List (Option ℚ) :=
  [rsi_contribution indicators.rsi,
   macd_contribution indicators.macd indicators.macd_signal,
   sma_cross_contribution indicators.sma_20 indicators.sma_50,
   price_vs_sma_contribution_claimed current_price indicators.sma_20,
   bollinger_contribution_claimed current_price indicators.bollinger_upper
     indicators.bollinger_lower indicators.bollinger_middle,
   stochastic_contribution indicators.stochastic_k]

/-- The technical score as the claim words it: sum of the contributions
of the present indicators divided by their number, 0.0 when none. -/
def technical_score_claimed (indicators : TechnicalIndicators) (current_price : ℚ) : ℚ :=
  let cs := present_scores (technical_contributions_claimed indicators current_price)
  if cs.length > 0 then cs.sum / (cs.length : ℚ) else 0

/-- TradingService._calculate_volume_score (trading_service.py, lines
342-364): needs at least 20 bars; baseline is the mean volume of the
bars [-20:-5]; the source then compares the volume of the last bar
(current_volume = recent_volumes[-1]) against the baseline. -/
def calculate_volume_score (market_data : List MarketData) : ℚ :=
  if market_data.length < 20 then 0
  else
    let recent_volumes := (market_data.drop (market_data.length - 5)).map (fun md => md.volume)
    let avg_volume : ℚ :=
      ((((market_data.drop (market_data.length - 20)).take 15).map (fun md => md.volume)).sum : ℚ) / 15
    if avg_volume = 0 then 0
    else
      let current_volume := recent_volumes.getD (recent_volumes.length - 1) 0
      let volume_ratio : ℚ := (current_volume : ℚ) / avg_volume
      if volume_ratio > (3 : ℚ) / 2 then (1 : ℚ) / 2
      else if volume_ratio < (1 : ℚ) / 2 then -((1 : ℚ) / 5)
      else (1 : ℚ) / 10

/-- The volume score as claimed by the spec: the ratio compares the MEAN
volume of the last 5 bars (not the last bar's volume) against the
baseline mean, and a zero baseline sets the ratio to 0.0 (which then
falls in the ratio < 0.5 branch). -/
def volume_score_claimed (market_data : List MarketData) : ℚ :=
  if market_data.length < 20 then 0
  else
    let avg_recent : ℚ :=
      (((market_data.drop (market_data.length - 5)).map (fun md => md.volume)).sum : ℚ) / 5
    let avg_baseline : ℚ :=
      ((((market_data.drop (market_data.length - 20)).take 15).map (fun md => md.volume)).sum : ℚ) / 15
    let ratio : ℚ := if avg_baseline = 0 then 0 else avg_recent / avg_baseline
    if ratio > (3 : ℚ) / 2 then (1 : ℚ) / 2
    else if ratio < (1 : ℚ) / 2 then -((1 : ℚ) / 5)
    else (1 : ℚ) / 10

/-- TradingService._calculate_momentum_score (trading_service.py, lines
366-391): returns 0.0 for fewer than 10 bars; otherwise blends the 1-day,
5-day and 10-day returns (the 10-day return defaults to 0 below 11 bars;
the 5-day guard len >= 6 is always met here) and clamps times 10 into
[-1, 1]. -/
def calculate_momentum_score (market_data : List MarketData) : ℚ :=
  if market_data.length < 10 then 0
  else
    let current_price := (pyNeg market_data 1).close_price
    let day_1_return :=
      (current_price - (pyNeg market_data 2).close_price) / (pyNeg market_data 2).close_price
    let day_5_return :=
      if market_data.length ≥ 6 then
        (current_price - (pyNeg market_data 6).close_price) / (pyNeg market_data 6).close_price
      else 0
    let day_10_return :=
      if market_data.length ≥ 11 then
        (current_price - (pyNeg market_data 11).close_price) / (pyNeg market_data 11).close_price
      else 0
    let momentum_score :=
      day_1_return * ((1 : ℚ) / 2) + day_5_return * ((3 : ℚ) / 10) + day_10_return * ((1 : ℚ) / 5)
    min (max (momentum_score * 10) (-1)) 1

/-- The momentum score as claimed by the spec: already defined for 2 or
more bars, with the 5-day and 10-day returns defaulting to 0 when their
lookback exceeds the series. -/
def momentum_score_claimed (market_data : List MarketData) : ℚ :=
  if market_data.length < 2 then 0
  else
    let current_price := (pyNeg market_data 1).close_price
    let day_1_return :=
      (current_price - (pyNeg market_data 2).close_price) / (pyNeg market_data 2).close_price
    let day_5_return :=
      if market_data.length ≥ 6 then
        (current_price - (pyNeg market_data 6).close_price) / (pyNeg market_data 6).close_price
      else 0
    let day_10_return :=
      if market_data.length ≥ 11 then
        (current_price - (pyNeg market_data 11).close_price) / (pyNeg market_data 11).close_price
      else 0
    let momentum_score :=
      day_1_return * ((1 : ℚ) / 2) + day_5_return * ((3 : ℚ) / 10) + day_10_return * ((1 : ℚ) / 5)
    min (max (momentum_score * 10) (-1)) 1

/-- The volatility condition of the risk classifier:
np.std(prices)/np.mean(prices) > c for the positive constant c, translated
exactly to rational arithmetic by squaring.  For a positive mean the two
comparisons agree (sqrt(v) > c*m iff v > (c*m)^2, both sides nonnegative);
for a negative mean the left side is nonpositive so the source comparison
is false; for a zero mean numpy yields inf (std > 0, comparison true) or
nan (std = 0, comparison false). -/
def std_over_mean_gt (xs : List ℚ) (c : ℚ) : Bool :=
  let m := mean xs
  if 0 < m then decide (popVar xs > (c * m) ^ 2)
  else if m < 0 then false
  else decide (popVar xs > 0)

/-- The volatility risk factor (trading_service.py, lines 437-442):
at least 20 bars and std/mean of the last 20 closes above 0.03. -/
def volatility_risk_factor (market_data : List MarketData) : Bool :=
  if market_data.length ≥ 20 then
    let recent_prices := (market_data.drop (market_data.length - 20)).map (fun md => md.close_price)
    std_over_mean_gt recent_prices ((3 : ℚ) / 100)
  else false

/-- The ATR risk factor (lines 444-448): indicators.atr truthy (present
and nonzero), at least one bar, and ATR over the last close above 0.025. -/
def atr_risk_factor (market_data : List MarketData) (indicators : TechnicalIndicators) : Bool :=
  match indicators.atr with
  | some a =>
    if a ≠ 0 ∧ market_data.length > 0 then
      decide (a / (pyNeg market_data 1).close_price > (1 : ℚ) / 40)
    else false
  | none => false

/-- The news-sentiment-dispersion risk factor (lines 450-455): nonempty
news list, and the std of the sentiments of the first 5 items above 0.5
whenever at least 2 of them exist (a single item gets std 0).  The
comparison std > 0.5 is translated to variance > 0.25 (both sides
nonnegative, squaring is exact). -/
def news_risk_factor (news_data : List NewsItem) : Bool :=
  match news_data with
  | [] => false
  | _ =>
    let sentiments := (news_data.take 5).map (fun news => news.sentiment)
    if sentiments.length > 1 then decide (popVar sentiments > ((1 : ℚ) / 2) ^ 2)
    else false

/-- The RSI-extremes risk factor (lines 457-460): the source tests
`if indicators.rsi:`, so the factor needs the RSI present AND nonzero,
then RSI > 80 or RSI < 20. -/
def rsi_risk_factor (indicators : TechnicalIndicators) : Bool :=
  match indicators.rsi with
  | some r => decide (r ≠ 0) && (decide (r > 80) || decide (r < 20))
  | none => false

/-- The RSI risk factor as the spec words it: RSI present and
(RSI > 80 or RSI < 20), with no nonzero requirement. -/
def rsi_risk_factor_claimed (indicators : TechnicalIndicators) : Bool :=
  match indicators.rsi with
  | some r => decide (r > 80) || decide (r < 20)
  | none => false

/-- The risk factor count of TradingService._calculate_risk_level
(trading_service.py, lines 428-461), accumulated in source order. -/
def risk_factors_count
    (market_data : List MarketData) (news_data : List NewsItem)
    (indicators : TechnicalIndicators) : ℕ :=
  let risk_factors : ℕ := 0
  let risk_factors := if volatility_risk_factor market_data then risk_factors + 1 else risk_factors
  let risk_factors :=
    if atr_risk_factor market_data indicators then risk_factors + 1 else risk_factors
  let risk_factors := if news_risk_factor news_data then risk_factors + 1 else risk_factors
  let risk_factors := if rsi_risk_factor indicators then risk_factors + 1 else risk_factors
  risk_factors

/-- The final tiering of the risk classifier (lines 462-468): at least 3
factors is high, at least 1 is medium, otherwise low. -/
def risk_level_of_count (risk_factors : ℕ) : RiskLevel :=
  if risk_factors ≥ 3 then RiskLevel.high
  else if risk_factors ≥ 1 then RiskLevel.medium
  else RiskLevel.low

/-- TradingService._calculate_risk_level (trading_service.py, lines
428-468). -/
def calculate_risk_level
    (market_data : List MarketData) (news_data : List NewsItem)
    (indicators : TechnicalIndicators) : RiskLevel :=
  risk_level_of_count (risk_factors_count market_data news_data indicators)

/-- The risk level as claimed by the spec: same pipeline but with the
claimed RSI factor (no nonzero requirement). -/
def risk_level_claimed
    (market_data : List MarketData) (news_data : List NewsItem)
    (indicators : TechnicalIndicators) : RiskLevel :=
  let c :=
    (if volatility_risk_factor market_data then 1 else 0)
      + (if atr_risk_factor market_data indicators then 1 else 0)
      + (if news_risk_factor news_data then 1 else 0)
      + (if rsi_risk_factor_claimed indicators then 1 else 0)
  risk_level_of_count c

/-- Numeric rank of a risk level, for the monotonicity statement. -/
def riskRank : RiskLevel → ℕ
  | RiskLevel.low => 0
  | RiskLevel.medium => 1
  | RiskLevel.high => 2

/-- The weights the TradingService instance holds (dataclass
SignalWeights, trading_service.py lines 21-27, defaults 0.4/0.4/0.1/0.1;
TradingService.__init__ sets signal_weights = SignalWeights() and the
instance is never reassigned). -/
structure SignalWeights where
  sentiment : ℚ := (2 : ℚ) / 5
  technical : ℚ := (2 : ℚ) / 5
  volume : ℚ := (1 : ℚ) / 10
  momentum : ℚ := (1 : ℚ) / 10
deriving Repr, DecidableEq

/-- The service's signal_weights field as initialized in
TradingService.__init__. -/
def service_signal_weights : SignalWeights := {}

/-- The untyped config dictionary handed to
TradingService.generate_signal, restricted to the numeric keys the spec
recognizes; an absent key is none. -/
structure SignalGenConfig where
  buy_threshold : Option ℚ := none
  sell_threshold : Option ℚ := none
  max_position_size : Option ℚ := none
  sentiment_weight : Option ℚ := none
  technical_weight : Option ℚ := none
  volume_weight : Option ℚ := none
  momentum_weight : Option ℚ := none
deriving Repr, DecidableEq

/-- The combined-score computation of TradingService.generate_signal
(trading_service.py, lines 69-75): the four component scores weighted by
self.signal_weights.  The supplied config dictionary is passed around by
generate_signal but never read for the weights, so it does not appear on
the right-hand side. -/
def generate_signal_combined_score
    (config : SignalGenConfig)
    (sentiment_score technical_score volume_score momentum_score : ℚ) : ℚ :=
  sentiment_score * service_signal_weights.sentiment
    + technical_score * service_signal_weights.technical
    + volume_score * service_signal_weights.volume
    + momentum_score * service_signal_weights.momentum

/-- The combined score as claimed by the spec: the weights are read from
the supplied config (with defaults 0.4/0.4/0.1/0.1). -/
def combined_score_claimed
    (config : SignalGenConfig)
    (sentiment_score technical_score volume_score momentum_score : ℚ) : ℚ :=
  sentiment_score * (config.sentiment_weight.getD ((2 : ℚ) / 5))
    + technical_score * (config.technical_weight.getD ((2 : ℚ) / 5))
    + volume_score * (config.volume_weight.getD ((1 : ℚ) / 10))
    + momentum_score * (config.momentum_weight.getD ((1 : ℚ) / 10))

/-- TradingService._determine_signal_type (trading_service.py, lines
393-403): threshold comparison with dictionary defaults 0.3 / -0.3; a
total function, it raises nothing. -/
def determine_signal_type (combined_score : ℚ) (config : SignalGenConfig) : SignalType :=
  let buy_threshold := config.buy_threshold.getD ((3 : ℚ) / 10)
  let sell_threshold := config.sell_threshold.getD (-((3 : ℚ) / 10))
  if combined_score ≥ buy_threshold then SignalType.BUY
  else if combined_score ≤ sell_threshold then SignalType.SELL
  else SignalType.HOLD

/-- Modelled from the spec: settings.MAX_POSITION_SIZE (app/core/config.py
is not in the source tree); the spec gives the default max_position_size
as 10000.0. -/
def SETTINGS_MAX_POSITION_SIZE : ℚ := 10000

/-- TradingService.risk_multipliers (trading_service.py, lines 33-37). -/
def risk_multipliers : RiskLevel → ℚ
  | RiskLevel.low => (1 : ℚ) / 2
  | RiskLevel.medium => 1
  | RiskLevel.high => (3 : ℚ) / 2

/-- Python int() on a float: truncation toward zero. -/
def pyInt (x : ℚ) : ℤ :=
  if 0 ≤ x then ⌊x⌋ else ⌈x⌉

/-- TradingService._calculate_position_size (trading_service.py, lines
470-487): budget divided by the risk multiplier, floor-divided by price,
clamped into [1, 1000]. -/
def calculate_position_size
    (current_price : ℚ) (risk_level : RiskLevel) (config : SignalGenConfig) : ℤ :=
  let max_position_size := config.max_position_size.getD SETTINGS_MAX_POSITION_SIZE
  let risk_multiplier := risk_multipliers risk_level
  let adjusted_position_size := max_position_size / risk_multiplier
  let quantity := pyInt (adjusted_position_size / current_price)
  max 1 (min quantity 1000)

/-- Schema class TradingConfig (backend/app/schemas/trading.py, lines
145-163), after successful validation. -/
structure TradingConfig where
  symbol : String
  buy_threshold : ℚ
  sell_threshold : ℚ
  risk_tolerance : RiskLevel
  max_position_size : ℚ
  enable_notifications : Bool
  enable_paper_trading : Bool
  stop_loss_percent : ℚ
  take_profit_percent : ℚ
  sentiment_weight : ℚ
  technical_weight : ℚ
deriving Repr, DecidableEq

/-- A failed TradingConfig construction (pydantic ValidationError). -/
inductive ConfigValidationError where
  | field_out_of_range (field : String)
  | weights_must_sum_to_one
deriving Repr, DecidableEq

/-- Construction of a TradingConfig with every field supplied explicitly
(schemas/trading.py, lines 145-163).  Pydantic checks the per-field ge/le
bounds in declaration order, then runs the weights_must_sum_to_one
validator on each of the two weight fields.  When that validator runs for
sentiment_weight, values does not yet hold the key sentiment_weight, so
its guard fails and nothing is checked; when it runs for
technical_weight, values holds sentiment_weight and the sum check fires.
No validator relates sell_threshold to buy_threshold. -/
def mkTradingConfig
    (symbol : String) (buy_threshold sell_threshold : ℚ) (risk_tolerance : RiskLevel)
    (max_position_size : ℚ) (enable_notifications enable_paper_trading : Bool)
    (stop_loss_percent take_profit_percent : ℚ)
    (sentiment_weight technical_weight : ℚ) :
    Except ConfigValidationError TradingConfig :=
  if ¬(-1 ≤ buy_threshold ∧ buy_threshold ≤ 1) then
    Except.error (ConfigValidationError.field_out_of_range "buy_threshold")
  else if ¬(-1 ≤ sell_threshold ∧ sell_threshold ≤ 1) then
    Except.error (ConfigValidationError.field_out_of_range "sell_threshold")
  else if ¬(0 ≤ sentiment_weight ∧ sentiment_weight ≤ 1) then
    Except.error (ConfigValidationError.field_out_of_range "sentiment_weight")
  else if ¬(0 ≤ technical_weight ∧ technical_weight ≤ 1) then
    Except.error (ConfigValidationError.field_out_of_range "technical_weight")
  else if |technical_weight + sentiment_weight - 1| > (1 : ℚ) / 100 then
    Except.error ConfigValidationError.weights_must_sum_to_one
  else
    Except.ok
      { symbol := symbol
        buy_threshold := buy_threshold
        sell_threshold := sell_threshold
        risk_tolerance := risk_tolerance
        max_position_size := max_position_size
        enable_notifications := enable_notifications
        enable_paper_trading := enable_paper_trading
        stop_loss_percent := stop_loss_percent
        take_profit_percent := take_profit_percent
        sentiment_weight := sentiment_weight
        technical_weight := technical_weight }

/-- The fields of a stored trade signal row that the execute-trade
endpoint can touch: the executed flag and the expiry timestamp (modelled
as an integer clock). -/
structure StoredSignal where
  executed : Bool
  expires_at : Option ℤ
deriving Repr, DecidableEq

/-- Errors of the execute-trade endpoint, trading.py lines 223-257
(HTTP 404 and HTTP 400). -/
inductive ExecuteTradeError where
  | signal_not_found
  | signal_already_executed
deriving Repr, DecidableEq

/-- The execute_trade endpoint (backend/app/api/v1/endpoints/trading.py,
lines 223-257).  Inputs: the looked-up signal row (none if the id is
unknown), the current time, and whether the broker call reports success.
Output: the broker success flag together with the signal row as left in
the database.  The endpoint checks signal.executed, but it never reads
expires_at: the current time plays no role. -/
def execute_trade (signal : Option StoredSignal) (now : ℤ) (broker_success : Bool) :
    Except ExecuteTradeError (Bool × StoredSignal) :=
  match signal with
  | none => Except.error ExecuteTradeError.signal_not_found
  | some s =>
    if s.executed then Except.error ExecuteTradeError.signal_already_executed
    else if broker_success then Except.ok (true, { s with executed := true })
    else Except.ok (false, s)

/-- The volume score with the compared quantity named directly: same
guards and branches as the source, with the ratio explicitly the volume
of the LAST bar over the baseline mean. -/
def volume_score_spec (market_data : List MarketData) : ℚ :=
  if market_data.length < 20 then 0
  else
    let avg_baseline : ℚ :=
      ((((market_data.drop (market_data.length - 20)).take 15).map (fun md => md.volume)).sum : ℚ) / 15
    if avg_baseline = 0 then 0
    else
      let ratio : ℚ := ((pyNeg market_data 1).volume : ℚ) / avg_baseline
      if ratio > (3 : ℚ) / 2 then (1 : ℚ) / 2
      else if ratio < (1 : ℚ) / 2 then -((1 : ℚ) / 5)
      else (1 : ℚ) / 10

/-- A 20-bar series separating the two volume-ratio readings: baseline
bars with volume 10, then recent volumes 100, 100, 100, 100, 1 — the mean
of the last five is far above the baseline while the last bar is far
below it. -/
def volume_bars_counterexample : List MarketData :=
  [⟨1, 10⟩, ⟨1, 10⟩, ⟨1, 10⟩, ⟨1, 10⟩, ⟨1, 10⟩,
   ⟨1, 10⟩, ⟨1, 10⟩, ⟨1, 10⟩, ⟨1, 10⟩, ⟨1, 10⟩,
   ⟨1, 10⟩, ⟨1, 10⟩, ⟨1, 10⟩, ⟨1, 10⟩, ⟨1, 10⟩,
   ⟨1, 100⟩, ⟨1, 100⟩, ⟨1, 100⟩, ⟨1, 100⟩, ⟨1, 1⟩]

/-- A two-bar series whose close doubles on the last day. -/
def momentum_bars_two : List MarketData :=
  [⟨1, 0⟩, ⟨2, 0⟩]

/-! Helper lemmas shared by the claim theorems. -/

theorem contribution_step_foldl (l : List (Option ℚ)) (a : ℚ) (n : ℕ) :
    l.foldl contribution_step (a, n)
      = (a + (l.filterMap id).sum, n + (l.filterMap id).length) := by
  induction l generalizing a n with
  | nil => simp
  | cons c cs ih =>
    cases c with
    | none => simpa [contribution_step] using ih a n
    | some d =>
      simp only [List.foldl_cons, contribution_step, List.filterMap_cons, id]
      rw [ih]
      simp [add_assoc, List.length_cons]
      omega

theorem rsi_block_eq (acc : ℚ × ℕ) (rsi : Option ℚ) :
    rsi_block acc rsi = contribution_step acc (rsi_contribution rsi) := by
  cases rsi with
  | none => rfl
  | some r =>
    simp only [rsi_block, rsi_contribution, contribution_step]
    split_ifs <;> simp [sub_eq_add_neg]

theorem macd_block_eq (acc : ℚ × ℕ) (macd macd_signal : Option ℚ) :
    macd_block acc macd macd_signal = contribution_step acc (macd_contribution macd macd_signal) := by
  cases macd with
  | none => cases macd_signal <;> rfl
  | some m =>
    cases macd_signal with
    | none => rfl
    | some s =>
      simp only [macd_block, macd_contribution, contribution_step]
      split_ifs <;> simp [sub_eq_add_neg]

theorem sma_cross_block_eq (acc : ℚ × ℕ) (sma_20 sma_50 : Option ℚ) :
    sma_cross_block acc sma_20 sma_50
      = contribution_step acc (sma_cross_contribution sma_20 sma_50) := by
  cases sma_20 with
  | none => cases sma_50 <;> rfl
  | some s20 =>
    cases sma_50 with
    | none => rfl
    | some s50 =>
      simp only [sma_cross_block, sma_cross_contribution, contribution_step]
      split_ifs <;> simp [sub_eq_add_neg]

theorem price_vs_sma_block_eq (acc : ℚ × ℕ) (current_price : ℚ) (sma_20 : Option ℚ) :
    price_vs_sma_block acc current_price sma_20
      = (price_vs_sma_contribution current_price sma_20).map (contribution_step acc) := by
  cases sma_20 with
  | none => rfl
  | some s20 =>
    by_cases h : s20 = 0
    · simp [price_vs_sma_block, price_vs_sma_contribution, h]
    · simp [price_vs_sma_block, price_vs_sma_contribution, h, contribution_step]

theorem bollinger_block_eq (acc : ℚ × ℕ) (current_price : ℚ) (upper lower middle : Option ℚ) :
    bollinger_block acc current_price upper lower middle
      = (bollinger_contribution current_price upper lower middle).map (contribution_step acc) := by
  simp only [bollinger_block, bollinger_contribution]
  by_cases h : (pyTruthy upper && pyTruthy lower && pyTruthy middle) = true
  · simp only [h, if_true]
    by_cases hz : upper.getD 0 - lower.getD 0 = 0
    · simp [hz]
    · rw [if_neg hz, if_neg hz]
      simp only [Option.map_some', contribution_step]
      split_ifs <;> simp [sub_eq_add_neg]
  · simp only [eq_self_iff_true] at h
    simp [h, contribution_step]

theorem stochastic_block_eq (acc : ℚ × ℕ) (stochastic_k : Option ℚ) :
    stochastic_block acc stochastic_k
      = contribution_step acc (stochastic_contribution stochastic_k) := by
  cases stochastic_k with
  | none => rfl
  | some k =>
    simp only [stochastic_block, stochastic_contribution, contribution_step]
    split_ifs <;> simp [sub_eq_add_neg]

theorem sentiment_foldl (l : List (ℕ × NewsItem)) (a b : ℚ) :
    l.foldl (fun acc p => (acc.1 + weighted_sentiment_term p, acc.2 + recency_weight p)) (a, b)
      = (a + (l.map weighted_sentiment_term).sum, b + (l.map recency_weight).sum) := by
  induction l generalizing a b with
  | nil => simp
  | cons x xs ih =>
    simp only [List.foldl_cons, List.map_cons, List.sum_cons]
    rw [ih]
    ring_nf

/-! Claim theorems. -/

/-- Claim C1, counterexample: with a supplied config carrying the weights
1/0/0/0 and component scores (1, 0, 0, 0), the combined score computed by
generate_signal is 0.4 (from the service's own SignalWeights), while the
weighted sum under the supplied config's weights would be 1, so the
combined score is not the weighted sum under the supplied weights. -/
theorem combined_score_ignores_config_counterexample :
    generate_signal_combined_score
        { sentiment_weight := some 1, technical_weight := some 0,
          volume_weight := some 0, momentum_weight := some 0 } 1 0 0 0 = (2 : ℚ) / 5 ∧
    combined_score_claimed
        { sentiment_weight := some 1, technical_weight := some 0,
          volume_weight := some 0, momentum_weight := some 0 } 1 0 0 0 = 1 ∧
    ((2 : ℚ) / 5) ≠ (1 : ℚ) := by
  refine ⟨?_, ?_, ?_⟩
  · norm_num [generate_signal_combined_score, service_signal_weights]
  · norm_num [combined_score_claimed]
  · norm_num

/-- Claim C1 (amended): the combined score produced by generate_signal is
always the weighted sum of the four component scores under the service's
fixed SignalWeights defaults 0.4/0.4/0.1/0.1, which sum to 1; any weights
in the supplied config are ignored, so the combined score does not depend
on the supplied config. -/
theorem combined_score_fixed_weights (config config2 : SignalGenConfig) (s t v m : ℚ) :
    generate_signal_combined_score config s t v m
        = s * ((2 : ℚ) / 5) + t * ((2 : ℚ) / 5) + v * ((1 : ℚ) / 10) + m * ((1 : ℚ) / 10) ∧
    service_signal_weights.sentiment + service_signal_weights.technical
        + service_signal_weights.volume + service_signal_weights.momentum = 1 ∧
    generate_signal_combined_score config s t v m
        = generate_signal_combined_score config2 s t v m := by
  refine ⟨rfl, ?_, rfl⟩
  norm_num [service_signal_weights]

/-- Claim C2, counterexample: a TradingConfig whose sell_threshold (0.5)
is greater than or equal to its buy_threshold (0.1) is accepted at
construction: no error of any kind is raised, refuting the claim that
such a configuration raises InvalidConfig at construction time. -/
theorem trading_config_sell_ge_buy_accepted :
    ((1 : ℚ) / 10 ≤ (1 : ℚ) / 2) ∧
    (mkTradingConfig "RELIANCE" ((1 : ℚ) / 10) ((1 : ℚ) / 2) RiskLevel.medium 10000 true true
        5 10 ((3 : ℚ) / 5) ((2 : ℚ) / 5)).isOk = true := by
  refine ⟨by norm_num, ?_⟩
  have habs : |(2 : ℚ) / 5 + (3 : ℚ) / 5 - 1| = 0 := by
    rw [show ((2 : ℚ) / 5 + (3 : ℚ) / 5 - 1) = 0 by norm_num]
    exact abs_zero
  norm_num [mkTradingConfig, habs, Except.isOk, Except.toBool]

/-- Claim C2 (amended): with every constrained field inside its pydantic
bounds, explicit construction of a TradingConfig fails exactly when the
two supplied weights do not sum to 1 within 0.01 — in particular
sentiment_weight=0.5 with technical_weight=0.6 is rejected at
construction; the ordering of sell_threshold and buy_threshold is not
validated anywhere, and no error is raised mid-computation. -/
theorem trading_config_validation (symbol : String) (buy sell : ℚ) (risk : RiskLevel)
    (maxPos : ℚ) (notif paper : Bool) (stopLoss takeProfit : ℚ) (sw tw : ℚ)
    (hbuy : -1 ≤ buy ∧ buy ≤ 1) (hsell : -1 ≤ sell ∧ sell ≤ 1)
    (hsw : 0 ≤ sw ∧ sw ≤ 1) (htw : 0 ≤ tw ∧ tw ≤ 1) :
    ((mkTradingConfig symbol buy sell risk maxPos notif paper stopLoss takeProfit sw tw).isOk = true
        ↔ |tw + sw - 1| ≤ (1 : ℚ) / 100) ∧
    mkTradingConfig "RELIANCE" ((1 : ℚ) / 5) (-((1 : ℚ) / 5)) RiskLevel.medium 10000 true true
        5 10 ((1 : ℚ) / 2) ((3 : ℚ) / 5)
      = Except.error ConfigValidationError.weights_must_sum_to_one := by
  constructor
  · unfold mkTradingConfig
    rw [if_neg (not_not_intro hbuy), if_neg (not_not_intro hsell),
        if_neg (not_not_intro hsw), if_neg (not_not_intro htw)]
    by_cases h : |tw + sw - 1| ≤ (1 : ℚ) / 100
    · rw [if_neg (not_lt.mpr h)]
      simpa [Except.isOk, Except.toBool] using h
    · rw [if_pos (not_le.mp h)]
      simpa [Except.isOk, Except.toBool] using h
  · have habs : |(1 : ℚ) / 10| = (1 : ℚ) / 10 := abs_of_nonneg (by norm_num)
    norm_num [mkTradingConfig, habs]

/-- Witness for trading_config_validation at the in-bounds scenario of
the claim (sentiment_weight 0.5, technical_weight 0.6): the sum check is
violated, so construction fails. -/
theorem trading_config_validation_witness :
    ((-1 ≤ (1 : ℚ) / 5 ∧ (1 : ℚ) / 5 ≤ 1) ∧ (-1 ≤ -((1 : ℚ) / 5) ∧ -((1 : ℚ) / 5) ≤ 1) ∧
     ((0 : ℚ) ≤ (1 : ℚ) / 2 ∧ (1 : ℚ) / 2 ≤ 1) ∧ ((0 : ℚ) ≤ (3 : ℚ) / 5 ∧ (3 : ℚ) / 5 ≤ 1)) ∧
    (((mkTradingConfig "RELIANCE" ((1 : ℚ) / 5) (-((1 : ℚ) / 5)) RiskLevel.medium 10000 true true
          5 10 ((1 : ℚ) / 2) ((3 : ℚ) / 5)).isOk = true
        ↔ |(3 : ℚ) / 5 + (1 : ℚ) / 2 - 1| ≤ (1 : ℚ) / 100) ∧
     mkTradingConfig "RELIANCE" ((1 : ℚ) / 5) (-((1 : ℚ) / 5)) RiskLevel.medium 10000 true true
          5 10 ((1 : ℚ) / 2) ((3 : ℚ) / 5)
       = Except.error ConfigValidationError.weights_must_sum_to_one) :=
  ⟨⟨by norm_num, by norm_num, by norm_num, by norm_num⟩,
   trading_config_validation "RELIANCE" ((1 : ℚ) / 5) (-((1 : ℚ) / 5)) RiskLevel.medium 10000
     true true 5 10 ((1 : ℚ) / 2) ((3 : ℚ) / 5)
     (by norm_num) (by norm_num) (by norm_num) (by norm_num)⟩

/-- Claim C3, counterexample: an unexecuted signal whose expires_at (5)
lies before the current time (10) is executed without any error and
marked executed — the endpoint never checks expiry, refuting the claim
that executing an expired signal fails with InvalidSignalState. -/
theorem execute_trade_expired_signal_executes :
    ((5 : ℤ) < 10) ∧
    execute_trade (some { executed := false, expires_at := some 5 }) 10 true
      = Except.ok (true, { executed := true, expires_at := some 5 }) := by
  exact ⟨by norm_num, rfl⟩

/-- Claim C3 (amended): execute_trade fails, leaving the stored row
untouched, precisely when the signal is already executed; expiry plays no
role in the check. A broker-successful call on an unexecuted signal marks
it executed, and every later call on the now-executed signal raises the
already-executed error, so the second of two broker-successful calls on
the same signal always raises. -/
theorem execute_trade_lifecycle (s : StoredSignal) (now now2 : ℤ) (b2 : Bool)
    (h : s.executed = false) :
    execute_trade (some s) now true = Except.ok (true, { s with executed := true }) ∧
    execute_trade (some { s with executed := true }) now2 b2
      = Except.error ExecuteTradeError.signal_already_executed ∧
    (∀ t : StoredSignal, t.executed = true →
      execute_trade (some t) now2 b2 = Except.error ExecuteTradeError.signal_already_executed) := by
  refine ⟨?_, ?_, ?_⟩
  · simp [execute_trade, h]
  · simp [execute_trade]
  · intro t ht
    simp [execute_trade, ht]

/-- Witness for execute_trade_lifecycle on a concrete unexecuted signal:
the first broker-successful call succeeds, the second call raises. -/
theorem execute_trade_lifecycle_witness :
    (StoredSignal.executed ⟨false, some 5⟩ = false) ∧
    execute_trade (some ⟨false, some 5⟩) 0 true = Except.ok (true, ⟨true, some 5⟩) ∧
    execute_trade (some ⟨true, some 5⟩) 1 true
      = Except.error ExecuteTradeError.signal_already_executed := by
  have h := execute_trade_lifecycle ⟨false, some 5⟩ 0 1 true rfl
  exact ⟨rfl, h.1, h.2.1⟩

/-- Claim C4, counterexample: with the three Bollinger bands present but
the lower band exactly 0.0 and a positive current price 1.8, the claimed
table gives the Bollinger contribution -0.4 (band position 0.9 > 0.8)
from a single present indicator, but the source's truthiness guard
all([upper, lower, middle]) skips the zero band, so the computed
technical score is 0. -/
theorem technical_score_zero_band_counterexample :
    (0 : ℚ) < (9 : ℚ) / 5 ∧
    technical_score_body
        { bollinger_upper := some 2, bollinger_middle := some 1, bollinger_lower := some 0 }
        ((9 : ℚ) / 5) = some 0 ∧
    technical_score_claimed
        { bollinger_upper := some 2, bollinger_middle := some 1, bollinger_lower := some 0 }
        ((9 : ℚ) / 5) = -((2 : ℚ) / 5) ∧
    (0 : ℚ) ≠ -((2 : ℚ) / 5) := by
  refine ⟨by norm_num, ?_, ?_, by norm_num⟩
  · norm_num [technical_score_body, rsi_block, macd_block, sma_cross_block, price_vs_sma_block,
      bollinger_block, stochastic_block, pyTruthy]
  · norm_num [technical_score_claimed, technical_contributions_claimed, present_scores,
      rsi_contribution, macd_contribution, sma_cross_contribution,
      price_vs_sma_contribution_claimed, bollinger_contribution_claimed,
      stochastic_contribution, List.filterMap]

/-- Claim C4 (amended): whenever neither fallible division raises — the
price-vs-SMA group (raises exactly when SMA20 is present and 0.0) and
the Bollinger group (raises exactly when it passes the truthiness guard
with equal upper and lower bands) each produce an outcome — the
technical score is the sum of the contributions of the present indicator
groups divided by their number (0.0 when none is present), the Bollinger
group being present only when all three bands are set and nonzero; the
computation yields no score (ZeroDivisionError) exactly when one of
those two groups raises; an indicator set with RSI 25 and everything
else unset scores exactly 0.7. -/
theorem technical_score_averages_contributions (indicators : TechnicalIndicators) (price : ℚ) :
    (∀ c4 c5 : Option ℚ,
        price_vs_sma_contribution price indicators.sma_20 = some c4 →
        bollinger_contribution price indicators.bollinger_upper indicators.bollinger_lower
            indicators.bollinger_middle = some c5 →
        technical_score_body indicators price
          = some (technical_average
              [rsi_contribution indicators.rsi,
               macd_contribution indicators.macd indicators.macd_signal,
               sma_cross_contribution indicators.sma_20 indicators.sma_50,
               c4, c5,
               stochastic_contribution indicators.stochastic_k])) ∧
    (technical_score_body indicators price = none
        ↔ price_vs_sma_contribution price indicators.sma_20 = none
          ∨ bollinger_contribution price indicators.bollinger_upper indicators.bollinger_lower
              indicators.bollinger_middle = none) ∧
    (price_vs_sma_contribution price indicators.sma_20 = none
        ↔ indicators.sma_20 = some 0) ∧
    (bollinger_contribution price indicators.bollinger_upper indicators.bollinger_lower
          indicators.bollinger_middle = none
        ↔ (pyTruthy indicators.bollinger_upper && pyTruthy indicators.bollinger_lower
              && pyTruthy indicators.bollinger_middle) = true
          ∧ indicators.bollinger_upper.getD 0 - indicators.bollinger_lower.getD 0 = 0) ∧
    technical_score_body { rsi := some 25 } price = some ((7 : ℚ) / 10) := by
  refine ⟨?_, ?_, ?_, ?_, ?_⟩
  · intro c4 c5 h4 h5
    have h := contribution_step_foldl
      [rsi_contribution indicators.rsi,
       macd_contribution indicators.macd indicators.macd_signal,
       sma_cross_contribution indicators.sma_20 indicators.sma_50,
       c4, c5,
       stochastic_contribution indicators.stochastic_k] 0 0
    simp only [List.foldl_cons, List.foldl_nil] at h
    simp only [technical_score_body, rsi_block_eq, macd_block_eq, sma_cross_block_eq,
      price_vs_sma_block_eq, bollinger_block_eq, stochastic_block_eq, h4, h5,
      Option.map_some']
    rw [h]
    simp [technical_average]
  · cases hp : price_vs_sma_contribution price indicators.sma_20 with
    | none =>
      simp [technical_score_body, price_vs_sma_block_eq, hp]
    | some c4 =>
      cases hb : bollinger_contribution price indicators.bollinger_upper
          indicators.bollinger_lower indicators.bollinger_middle with
      | none =>
        simp [technical_score_body, price_vs_sma_block_eq, bollinger_block_eq, hp, hb]
      | some c5 =>
        simp [technical_score_body, price_vs_sma_block_eq, bollinger_block_eq, hp, hb]
  · cases hs : indicators.sma_20 with
    | none => simp [price_vs_sma_contribution]
    | some s => by_cases h : s = 0 <;> simp [price_vs_sma_contribution, h]
  · by_cases hg : (pyTruthy indicators.bollinger_upper && pyTruthy indicators.bollinger_lower
        && pyTruthy indicators.bollinger_middle) = true
    · by_cases hz : indicators.bollinger_upper.getD 0 - indicators.bollinger_lower.getD 0 = 0 <;>
        simp [bollinger_contribution, hg, hz]
    · simp only [Bool.not_eq_true] at hg
      simp [bollinger_contribution, hg]
  · norm_num [technical_score_body, rsi_block, macd_block, sma_cross_block, price_vs_sma_block,
      bollinger_block, stochastic_block, pyTruthy]

/-- Witness for technical_score_averages_contributions: RSI-only
indicators at price 1 — both fallible groups are absent (outcome
produced, no exception) and the score averages the single present
contribution. -/
theorem technical_score_averages_contributions_witness :
    price_vs_sma_contribution 1 none = some none ∧
    bollinger_contribution 1 none none none = some none ∧
    technical_score_body { rsi := some 25 } 1
      = some (technical_average
          [rsi_contribution (some 25), macd_contribution none none,
           sma_cross_contribution none none, none, none, stochastic_contribution none]) :=
  ⟨rfl, rfl,
   (technical_score_averages_contributions { rsi := some 25 } 1).1 none none rfl rfl⟩

/-- Claim C6, counterexample: with RSI present and exactly 0.0 (and no
other risk factor possible: no bars, no news, no ATR), the claim's
condition "RSI present and RSI < 20" holds, giving count 1 and MEDIUM,
but the source's truthiness test `if indicators.rsi:` skips the zero
value, so the computed risk level is LOW. -/
theorem risk_level_rsi_zero_counterexample :
    calculate_risk_level [] [] { rsi := some 0 } = RiskLevel.low ∧
    risk_level_claimed [] [] { rsi := some 0 } = RiskLevel.medium ∧
    RiskLevel.low ≠ RiskLevel.medium := by
  refine ⟨?_, ?_, by decide⟩
  · norm_num [calculate_risk_level, risk_factors_count, risk_level_of_count,
      volatility_risk_factor, atr_risk_factor, news_risk_factor, rsi_risk_factor]
  · norm_num [risk_level_claimed, risk_level_of_count, volatility_risk_factor,
      atr_risk_factor, news_risk_factor, rsi_risk_factor_claimed]

/-- Claim C6 (amended): the risk level is the pure tiering (>= 3 HIGH,
>= 1 MEDIUM, else LOW) of a risk-factor count that adds one,
order-independently, for each true condition among volatility, ATR, news
sentiment dispersion, and RSI extremes — where the RSI condition
additionally requires the RSI to be nonzero; the tiering is monotone in
the count. -/
theorem risk_level_pipeline (market_data : List MarketData) (news_data : List NewsItem)
    (indicators : TechnicalIndicators) :
    calculate_risk_level market_data news_data indicators
        = risk_level_of_count (risk_factors_count market_data news_data indicators) ∧
    risk_factors_count market_data news_data indicators
        = ((if volatility_risk_factor market_data then 1 else 0)
            + (if atr_risk_factor market_data indicators then 1 else 0)
            + (if news_risk_factor news_data then 1 else 0)
            + (if rsi_risk_factor indicators then 1 else 0)) ∧
    (∀ m n : ℕ, m ≤ n → riskRank (risk_level_of_count m) ≤ riskRank (risk_level_of_count n)) ∧
    risk_level_of_count 0 = RiskLevel.low ∧
    risk_level_of_count 1 = RiskLevel.medium ∧
    risk_level_of_count 2 = RiskLevel.medium ∧
    (∀ n : ℕ, 3 ≤ n → risk_level_of_count n = RiskLevel.high) := by
  refine ⟨rfl, ?_, ?_, rfl, rfl, rfl, ?_⟩
  · cases hv : volatility_risk_factor market_data <;>
      cases ha : atr_risk_factor market_data indicators <;>
      cases hn : news_risk_factor news_data <;>
      cases hr : rsi_risk_factor indicators <;>
      simp [risk_factors_count, hv, ha, hn, hr]
  · intro m n hmn
    unfold risk_level_of_count
    split_ifs <;> simp [riskRank] <;> omega
  · intro n hn
    simp [risk_level_of_count, hn]

/-- Witness for risk_level_pipeline: the monotonicity and tiering parts
instantiated at counts 1 and 3 and at empty inputs. -/
theorem risk_level_pipeline_witness :
    calculate_risk_level [] [] {} = risk_level_of_count (risk_factors_count [] [] {}) ∧
    riskRank (risk_level_of_count 1) ≤ riskRank (risk_level_of_count 3) ∧
    risk_level_of_count 3 = RiskLevel.high := by
  have h := risk_level_pipeline [] [] {}
  exact ⟨h.1, h.2.2.1 1 3 (by norm_num), h.2.2.2.2.2.2 3 (by norm_num)⟩

/-- Claim C5: the aggregated sentiment is the recency-weighted average
sum(score*confidence*weight)/sum(weight) with weight 1/(rank+1); the
empty list yields exactly 0 without an error, and a single item with
score 1, confidence 1 at rank 0 yields exactly 1. -/
theorem sentiment_weighted_average (news_data : List NewsItem) :
    calculate_sentiment_score news_data = sentiment_aggregate_spec news_data ∧
    calculate_sentiment_score [] = 0 ∧
    calculate_sentiment_score [⟨1, 1⟩] = 1 := by
  refine ⟨?_, rfl, ?_⟩
  · rcases news_data with _ | ⟨x, xs⟩
    · rfl
    · simp only [calculate_sentiment_score, sentiment_aggregate_spec]
      rw [sentiment_foldl]
      have hpos : 0 < ((x :: xs).enum.map recency_weight).sum := by
        apply List.sum_pos
        · intro y hy
          simp only [List.mem_map] at hy
          obtain ⟨p, hp, rfl⟩ := hy
          unfold recency_weight
          positivity
        · intro hnil
          have hlen := congrArg List.length hnil
          simp [List.enum_length] at hlen
      simp only [zero_add]
      rw [if_pos hpos]
  · norm_num [calculate_sentiment_score, List.enum, List.enumFrom,
      weighted_sentiment_term, recency_weight]

/-- Claim C7: for every risk tier, positive price and positive supplied
max_position_size, the recommended quantity is
floor((max_position_size / risk_multiplier) / price) clamped to
[1, 1000], hence always an integer between 1 and 1000 inclusive. -/
theorem position_size_formula (price m : ℚ) (risk : RiskLevel)
    (hp : 0 < price) (hm : 0 < m) :
    calculate_position_size price risk { max_position_size := some m }
        = max 1 (min ⌊m / risk_multipliers risk / price⌋ 1000) ∧
    1 ≤ calculate_position_size price risk { max_position_size := some m } ∧
    calculate_position_size price risk { max_position_size := some m } ≤ 1000 := by
  have hmult : 0 < risk_multipliers risk := by
    cases risk <;> norm_num [risk_multipliers]
  have hq : 0 ≤ m / risk_multipliers risk / price := by positivity
  have heq : calculate_position_size price risk { max_position_size := some m }
      = max 1 (min ⌊m / risk_multipliers risk / price⌋ 1000) := by
    simp only [calculate_position_size, Option.getD_some, pyInt]
    rw [if_pos hq]
  refine ⟨heq, ?_, ?_⟩
  · rw [heq]
    exact le_max_left _ _
  · rw [heq]
    exact max_le (by norm_num) (min_le_right _ _)

/-- Witness for position_size_formula: price 2, budget 100, medium risk
gives quantity 50, inside [1, 1000]. -/
theorem position_size_formula_witness :
    (0 : ℚ) < 2 ∧ (0 : ℚ) < 100 ∧
    (calculate_position_size 2 RiskLevel.medium { max_position_size := some 100 }
        = max 1 (min ⌊(100 : ℚ) / risk_multipliers RiskLevel.medium / 2⌋ 1000) ∧
     1 ≤ calculate_position_size 2 RiskLevel.medium { max_position_size := some 100 } ∧
     calculate_position_size 2 RiskLevel.medium { max_position_size := some 100 } ≤ 1000) :=
  ⟨by norm_num, by norm_num,
   position_size_formula 2 100 RiskLevel.medium (by norm_num) (by norm_num)⟩

/-- Claim C8: the confidence equals the clamp into [0, 1] of
agreement_ratio*0.6 + magnitude_avg*0.4 (the source only clamps above,
but the pre-clamp value is never negative, so the two agree); the result
always lies in [0, 1] and the empty list yields exactly 0. -/
theorem confidence_clamped (scores : List ℚ) :
    calculate_confidence scores = confidence_clamped_spec scores ∧
    0 ≤ calculate_confidence scores ∧
    calculate_confidence scores ≤ 1 ∧
    calculate_confidence [] = 0 := by
  have hcore : ∀ l : List ℚ, 0 ≤ confidence_core l := by
    intro l
    have hmag : 0 ≤ (l.map (fun s => |s|)).sum / ((l.length : ℕ) : ℚ) := by
      apply div_nonneg
      · apply List.sum_nonneg
        intro x hx
        simp only [List.mem_map] at hx
        obtain ⟨y, hy, rfl⟩ := hx
        exact abs_nonneg y
      · positivity
    refine add_nonneg (mul_nonneg ?_ (by norm_num)) (mul_nonneg hmag (by norm_num))
    exact div_nonneg (Nat.cast_nonneg _) (Nat.cast_nonneg _)
  rcases scores with _ | ⟨a, l⟩
  · refine ⟨rfl, le_refl 0, ?_, rfl⟩
    change (0 : ℚ) ≤ 1
    norm_num
  · have hmin : 0 ≤ min (confidence_core (a :: l)) 1 := le_min (hcore (a :: l)) zero_le_one
    refine ⟨?_, ?_, ?_, rfl⟩
    · show min (confidence_core (a :: l)) 1 = max 0 (min (confidence_core (a :: l)) 1)
      exact (max_eq_right hmin).symm
    · exact hmin
    · exact min_le_right _ _

theorem recent_volumes_last (bars : List MarketData) (h : 20 ≤ bars.length) :
    ((bars.drop (bars.length - 5)).map (fun md => md.volume)).getD
        (((bars.drop (bars.length - 5)).map (fun md => md.volume)).length - 1) 0
      = (pyNeg bars 1).volume := by
  have h5 : (bars.drop (bars.length - 5)).length = 5 := by
    rw [List.length_drop]
    omega
  have hmap : ((bars.drop (bars.length - 5)).map (fun md => md.volume)).length = 5 := by
    rw [List.length_map, h5]
  rw [hmap]
  rw [List.getD_eq_getElem?_getD, List.getElem?_map, List.getElem?_drop]
  have hidx : bars.length - 5 + (5 - 1) = bars.length - 1 := by omega
  rw [hidx]
  have hlt : bars.length - 1 < bars.length := by omega
  rw [List.getElem?_eq_getElem hlt]
  simp [pyNeg, List.getD_eq_getElem?_getD, List.getElem?_eq_getElem hlt]

/-- Claim C9, counterexample: on a 20-bar series whose baseline mean
volume is 10 and whose last five volumes are 100, 100, 100, 100, 1, the
claimed ratio mean(last 5)/baseline = 8.02 gives +0.5, but the source
compares only the last bar's volume (ratio 0.1 < 0.5), producing -0.2. -/
theorem volume_score_last_bar_counterexample :
    calculate_volume_score volume_bars_counterexample = -((1 : ℚ) / 5) ∧
    volume_score_claimed volume_bars_counterexample = (1 : ℚ) / 2 ∧
    -((1 : ℚ) / 5) ≠ ((1 : ℚ) / 2) := by
  refine ⟨?_, ?_, by norm_num⟩
  · norm_num [calculate_volume_score, volume_bars_counterexample]
  · norm_num [volume_score_claimed, volume_bars_counterexample]

/-- Claim C9 (amended): the volume score is 0.0 below 20 bars; otherwise,
with avg_baseline the mean volume of the bars [-20,-5), the score is 0.0
when avg_baseline is 0, and is otherwise determined by the ratio of the
LAST bar's volume to avg_baseline — above 1.5 gives +0.5, below 0.5
gives -0.2, and anything else +0.1. -/
theorem volume_score_eq_spec (market_data : List MarketData) :
    calculate_volume_score market_data = volume_score_spec market_data := by
  by_cases h : market_data.length < 20
  · simp [calculate_volume_score, volume_score_spec, h]
  · have h20 : 20 ≤ market_data.length := by omega
    simp only [calculate_volume_score, volume_score_spec, if_neg h]
    rw [recent_volumes_last market_data h20]

/-- Claim C10, counterexample: a two-bar series with closes 1 then 2 has
a 1-day return of 1.0, so the claimed formula gives
clamp(0.5*1*10, -1, 1) = 1, but the source returns 0.0 for every series
of fewer than 10 bars. -/
theorem momentum_score_two_bars_counterexample :
    (2 ≤ momentum_bars_two.length) ∧
    calculate_momentum_score momentum_bars_two = 0 ∧
    momentum_score_claimed momentum_bars_two = 1 ∧
    (0 : ℚ) ≠ 1 := by
  refine ⟨by norm_num [momentum_bars_two], ?_, ?_, by norm_num⟩
  · norm_num [calculate_momentum_score, momentum_bars_two]
  · norm_num [momentum_score_claimed, momentum_bars_two, pyNeg]

/-- Claim C10 (amended): the momentum score is 0.0 below 10 bars (not
below 2); with at least 10 bars it is the clamp into [-1, 1] of
(0.5*r1 + 0.3*r5 + 0.2*r10)*10, where the 1-day and 5-day returns are
always available and only the 10-day return defaults to 0 (when fewer
than 11 bars exist); the result always lies in [-1, 1]. -/
theorem momentum_score_characterization (market_data : List MarketData) :
    (market_data.length < 10 → calculate_momentum_score market_data = 0) ∧
    (10 ≤ market_data.length →
      calculate_momentum_score market_data
        = min (max ((((pyNeg market_data 1).close_price - (pyNeg market_data 2).close_price)
                / (pyNeg market_data 2).close_price * ((1 : ℚ) / 2)
              + ((pyNeg market_data 1).close_price - (pyNeg market_data 6).close_price)
                / (pyNeg market_data 6).close_price * ((3 : ℚ) / 10)
              + (if 11 ≤ market_data.length then
                    ((pyNeg market_data 1).close_price - (pyNeg market_data 11).close_price)
                      / (pyNeg market_data 11).close_price
                  else 0) * ((1 : ℚ) / 5)) * 10) (-1)) 1) ∧
    -1 ≤ calculate_momentum_score market_data ∧
    calculate_momentum_score market_data ≤ 1 := by
  have hb : ∀ q : ℚ, -1 ≤ min (max q (-1)) 1 ∧ min (max q (-1)) 1 ≤ 1 := by
    intro q
    constructor
    · exact le_min (le_max_right q (-1)) (by norm_num)
    · exact min_le_right _ _
  have hform : 10 ≤ market_data.length →
      calculate_momentum_score market_data
        = min (max ((((pyNeg market_data 1).close_price - (pyNeg market_data 2).close_price)
              / (pyNeg market_data 2).close_price * ((1 : ℚ) / 2)
            + ((pyNeg market_data 1).close_price - (pyNeg market_data 6).close_price)
              / (pyNeg market_data 6).close_price * ((3 : ℚ) / 10)
            + (if 11 ≤ market_data.length then
                  ((pyNeg market_data 1).close_price - (pyNeg market_data 11).close_price)
                    / (pyNeg market_data 11).close_price
                else 0) * ((1 : ℚ) / 5)) * 10) (-1)) 1 := by
    intro h
    have h6 : market_data.length ≥ 6 := by omega
    simp only [calculate_momentum_score, if_neg (not_lt.mpr h), if_pos h6]
  refine ⟨?_, hform, ?_⟩
  · intro h
    simp [calculate_momentum_score, h]
  · by_cases h : market_data.length < 10
    · constructor <;> simp [calculate_momentum_score, h]
    · rw [hform (by omega)]
      exact hb _

/-- Witness for momentum_score_characterization: the short-series branch
at the two-bar series — below 10 bars the score is 0. -/
theorem momentum_score_characterization_witness :
    momentum_bars_two.length < 10 ∧ calculate_momentum_score momentum_bars_two = 0 :=
  ⟨by norm_num [momentum_bars_two],
   (momentum_score_characterization momentum_bars_two).1 (by norm_num [momentum_bars_two])⟩

end SentimentBot
